import Mathlib

set_option autoImplicit false

/-!
Verification of the agentkit SDK tool-calling core.

This file is a shallow embedding of the tool-calling orchestration loop of
`src/packages/sdk/src/agent.ts` together with its error taxonomy
(`src/packages/sdk/src/errors.ts`).  Pure helpers become Lean functions;
the `send()` loop becomes a recursive function over a script of provider
replies (one reply consumed per issued request, every issued request
recorded in order); JavaScript exceptions become an `Except` error value.
The external collaborators (the JSON builtins `JSON.parse` /
`JSON.stringify` and the zod-to-json-schema conversion of a validator) are
modelled as parameters, respectively as data carried by the validator tag,
exactly as the design notes of the specification prescribe for
duck-typed schema objects.
-/

/-- Minimal JSON value universe, used for schema fragments, parsed tool
arguments and tool results. -/
inductive Json where
  | null
  | bool (b : Bool)
  | num (n : Int)
  | str (s : String)
  | arr (elems : List Json)
  | obj (fields : List (String × Json))


/-- One entry of a SchemaSpec, as `convertSchemaToJsonSchema` distinguishes
them: a value that is an object carrying `_def` is a Zod validator — it has
a `_def.typeName` and `zodToJsonSchema` converts it to a fragment, whose
cleaned form (top-level `$schema` key removed) is carried here directly;
every other value is passed through verbatim. -/
inductive SchemaVal where
  | zod (typeName : String) (converted : Json)
  | raw (value : Json)


/-- Result of `convertSchemaToJsonSchema`: either the empty input object
returned as-is, or a wrapped object schema (the `type: "object"` tag is
implicit in the constructor).  `required = none` models the `required` key
being omitted from the output object. -/
inductive SchemaOut where
  | emptyPassthrough
  | objectSchema (properties : List (String × Json)) (required : Option (List String))


/-- The per-entry accumulation loop of `convertSchemaToJsonSchema`
(agent.ts lines 45-67), producing the `properties` list and the `required`
list, both in insertion order. -/
def convertEntries : List (String × SchemaVal) → List (String × Json) × List String
  | [] => ([], [])
  | (k, v) :: rest =>
    let acc := convertEntries rest
    match v with
    | .zod typeName converted =>
      ((k, converted) :: acc.1,
       if typeName = "ZodOptional" then acc.2 else k :: acc.2)
    | .raw value => ((k, value) :: acc.1, acc.2)

/-- `convertSchemaToJsonSchema` (agent.ts lines 35-74): an empty schema is
returned as-is; otherwise the entries are converted and wrapped in an
object schema whose `required` key is present only when the required list
is non-empty. -/
def convertSchemaToJsonSchema (schema : List (String × SchemaVal)) : SchemaOut :=
  if schema.isEmpty then .emptyPassthrough
  else
    let acc := convertEntries schema
    .objectSchema acc.1 (if 0 < acc.2.length then some acc.2 else none)

/-- Whether an entry is pushed onto `required`: exactly the Zod values
whose `_def.typeName` is not `ZodOptional` (agent.ts lines 59-62). -/
def requiredMark : SchemaVal → Bool
  | .zod typeName _ => if typeName = "ZodOptional" then false else true
  | .raw _ => false

/-- Whether an entry is explicitly marked optional: a Zod validator whose
`_def.typeName` is `ZodOptional`.  A raw passthrough value carries no
optionality marker at all. -/
def markedOptional : SchemaVal → Bool
  | .zod typeName _ => if typeName = "ZodOptional" then true else false
  | .raw _ => false

/-- The `required` array of an adapter output, reading an omitted key as
the empty list. -/
def requiredOf : SchemaOut → List String
  | .emptyPassthrough => []
  | .objectSchema _ none => []
  | .objectSchema _ (some rq) => rq

/-- A tool held by the agent: name, description, parameter schema and the
`execute` callable.  A thrown JavaScript exception is modelled as
`Except.error` carrying its message. -/
structure MTool where
  name : String
  description : String
  schema : List (String × SchemaVal)
  execute : Json → Except String Json

/-- The `function` part of an OpenAI tool declaration. -/
structure OpenAIFunction where
  name : String
  description : String
  parameters : SchemaOut

/-- OpenAI tool declaration (agent.ts lines 21-29). -/
structure OpenAITool where
  type : String
  function : OpenAIFunction

/-- `convertToOpenAITool` (agent.ts lines 79-90). -/
def convertToOpenAITool (tool : MTool) : OpenAITool :=
  { type := "function",
    function := { name := tool.name, description := tool.description,
                  parameters := convertSchemaToJsonSchema tool.schema } }

/-- A provider-emitted tool call: its union-type tag, correlation id, and
the `function.name` / `function.arguments` payload (arguments is the raw
JSON text, still to be parsed). -/
structure ToolCall where
  type : String
  id : String
  name : String
  arguments : String

/-- One entry of the conversation message array
(ChatCompletionMessageParam), by role. -/
inductive Msg where
  | system (content : String)
  | user (content : String)
  | assistant (content : Option String) (tool_calls : List ToolCall)
  | tool (content : String) (tool_call_id : String)

/-- Provider usage counters, passed through opaquely. -/
structure Usage where
  prompt_tokens : Nat
  completion_tokens : Nat
  total_tokens : Nat

/-- The first completion choice of a provider reply: `finish_reason`,
`message.content` (null modelled as `none`) and `message.tool_calls`
(absent modelled as `none`; note an empty list is still present, and JS
truthiness keeps it truthy). -/
structure Choice where
  finish_reason : String
  content : Option String
  tool_calls : Option (List ToolCall)

/-- A provider reply, reduced to the fields `send()` reads: `id`, `model`,
`usage` and `choices[0]`. -/
structure ProviderResponse where
  id : String
  model : String
  usage : Usage
  choice : Choice

/-- Per-model configuration; the numeric payloads are passed through
untouched, so their exact numeric type is irrelevant and `Int` stands in
for the JavaScript numbers. -/
structure ModelConfig where
  temperature : Option Int
  maxTokens : Option Int
  topP : Option Int

/-- One request body given to `openai.chat.completions.create`. -/
structure Request where
  model : String
  messages : List Msg
  tools : Option (List OpenAITool)
  temperature : Option Int
  max_tokens : Option Int
  top_p : Option Int

/-- The SDK error taxonomy of errors.ts, plus the two failure modes that
surface as plain JavaScript exceptions inside the loop (a `JSON.parse`
failure on tool arguments and a throwing tool `execute`), plus the
provider call itself failing. -/
inductive SendError where
  | unsupportedModel (modelName : String)
  | missingApiKey
  | toolNotFound (toolName : String)
  | argumentParseError (raw : String)
  | toolExecutionError (cause : String)
  | providerCallError
  | notImplemented (feature : String)
deriving DecidableEq, Repr

/-- Metadata of the public response (agent.ts lines 220-225). -/
structure AgentMetadata where
  id : String
  model : String
  usage : Usage
  finishReason : String

/-- The public response shape of `send()`. -/
structure AgentResponse where
  content : String
  metadata : AgentMetadata

/-- The private state of an `AgentBuilder` instance at the time `send()`
is called. -/
structure AgentState where
  _name : String
  _modelName : Option String
  _modelConfig : Option ModelConfig
  _instructions : Option String
  _tools : Option (List MTool)
  _config : Option (List (String × String))

/-- JavaScript `String.prototype.startsWith`, written over the character
lists of the two strings. -/
def strStartsWith (s p : String) : Bool := p.data.isPrefixOf s.data

/-- `this._modelName || 'gpt-4'` — JavaScript `||` treats the empty string
as falsy, so an empty configured name also falls back to `gpt-4`. -/
def resolveModelName : Option String → String
  | none => "gpt-4"
  | some s => if s = "" then "gpt-4" else s

/-- `this._config?.OPENAI_API_KEY`: optional-chained record lookup. -/
def configLookup (c : Option (List (String × String))) (key : String) : Option String :=
  (c.getD []).lookup key

/-- The optional leading system entry (agent.ts lines 150-152):
`if (this._instructions)` is a JS truthiness test, so the entry is pushed
only when instructions is defined and non-empty. -/
def instructionMessages : Option String → List Msg
  | none => []
  | some s => if s = "" then [] else [.system s]

/-- `tools && tools.length > 0 ? tools : undefined` where
`tools = this._tools?.map(convertToOpenAITool)`: the request carries no
tools field when the agent has no tool list or an empty one. -/
def toolsParam (tools : Option (List MTool)) : Option (List OpenAITool) :=
  match tools with
  | none => none
  | some ts =>
    let mapped := ts.map convertToOpenAITool
    if 0 < mapped.length then some mapped else none

/-- `this._tools?.find((t) => t.name === toolCall.function.name)` — an
undefined tool list makes the lookup miss. -/
def findTool (tools : Option (List MTool)) (name : String) : Option MTool :=
  (tools.getD []).find? (fun t => t.name == name)

/-- Assemble one request body (agent.ts lines 159-166 and 206-213): model
name, message array, optional tool declarations, and the pass-through
model parameters, absent ones staying absent. -/
def mkRequest (modelName : String) (msgs : List Msg)
    (tp : Option (List OpenAITool)) (mc : Option ModelConfig) : Request :=
  { model := modelName, messages := msgs, tools := tp,
    temperature := mc.bind ModelConfig.temperature,
    max_tokens := mc.bind ModelConfig.maxTokens,
    top_p := mc.bind ModelConfig.topP }

/-- The per-tool-call dispatch loop (agent.ts lines 180-203): a tool call
whose union tag is not `function` is skipped; otherwise the tool is looked
up (missing → `ToolNotFoundError`), its raw arguments parsed (failure →
the `JSON.parse` exception), `execute` invoked (throw → the tool's own
exception), and the serialized result appended as a tool-role message
carrying the originating call's id. -/
def dispatchTools (tools : Option (List MTool)) (parseJson : String → Option Json)
    (stringifyJson : Json → String) :
    List ToolCall → List Msg → Except SendError (List Msg)
  | [], msgs => .ok msgs
  | tc :: rest, msgs =>
    if tc.type = "function" then
      match findTool tools tc.name with
      | none => .error (.toolNotFound tc.name)
      | some t =>
        match parseJson tc.arguments with
        | none => .error (.argumentParseError tc.arguments)
        | some args =>
          match t.execute args with
          | .error cause => .error (.toolExecutionError cause)
          | .ok result =>
            dispatchTools tools parseJson stringifyJson rest
              (msgs ++ [.tool (stringifyJson result) tc.id])
    else
      dispatchTools tools parseJson stringifyJson rest msgs

/-- The Response Assembler (agent.ts lines 218-226): final content with
null coalesced to the empty string, plus id, model, usage and finish
reason. -/
def assembleResponse (resp : ProviderResponse) : AgentResponse :=
  { content := resp.choice.content.getD "",
    metadata := { id := resp.id, model := resp.model, usage := resp.usage,
                  finishReason := resp.choice.finish_reason } }

/-- The outcome of a `send()` run: the settled promise, and every request
body issued to the provider, in order. -/
structure SendOutcome where
  result : Except SendError AgentResponse
  requests : List Request

/-- The `while` loop of `send()` (agent.ts lines 171-216), driven by a
script of provider replies: given the reply just received, loop while its
`finish_reason` is `tool_calls` and `message.tool_calls` is present (JS
truthiness: an empty array still enters the loop); each iteration appends
the assistant entry, dispatches the tool calls, and issues the next
request, recording it.  An exhausted script at a request is a failing
provider call. -/
def runLoop (tools : Option (List MTool)) (parseJson : String → Option Json)
    (stringifyJson : Json → String) (modelName : String)
    (tp : Option (List OpenAITool)) (mc : Option ModelConfig)
    (msgs : List Msg) (resp : ProviderResponse)
    (script : List ProviderResponse) (reqs : List Request) : SendOutcome :=
  match resp.choice.tool_calls with
  | some tcs =>
    if resp.choice.finish_reason = "tool_calls" then
      let msgs1 := msgs ++ [.assistant resp.choice.content tcs]
      match dispatchTools tools parseJson stringifyJson tcs msgs1 with
      | .error e => { result := .error e, requests := reqs }
      | .ok msgs2 =>
        let req := mkRequest modelName msgs2 tp mc
        match script with
        | [] => { result := .error .providerCallError, requests := reqs ++ [req] }
        | r :: rest =>
          runLoop tools parseJson stringifyJson modelName tp mc msgs2 r rest (reqs ++ [req])
    else { result := .ok (assembleResponse resp), requests := reqs }
  | none => { result := .ok (assembleResponse resp), requests := reqs }

/-- `send()` (agent.ts lines 133-227): resolve the model name (reject
non-`gpt-4` names), require the API key (JS `!apiKey` also rejects an
empty string), build the initial message array and tool declarations,
issue the first request and enter the loop.  The provider is modelled as
a script of replies consumed one per issued request. -/
def send (a : AgentState) (parseJson : String → Option Json)
    (stringifyJson : Json → String) (message : String)
    (script : List ProviderResponse) : SendOutcome :=
  let modelName := resolveModelName a._modelName
  if strStartsWith modelName "gpt-4" then
    match configLookup a._config "OPENAI_API_KEY" with
    | none => { result := .error .missingApiKey, requests := [] }
    | some key =>
      if key = "" then { result := .error .missingApiKey, requests := [] }
      else
        let msgs := instructionMessages a._instructions ++ [.user message]
        let tp := toolsParam a._tools
        let req := mkRequest modelName msgs tp a._modelConfig
        match script with
        | [] => { result := .error .providerCallError, requests := [req] }
        | r :: rest =>
          runLoop a._tools parseJson stringifyJson modelName tp a._modelConfig msgs r rest [req]
  else { result := .error (.unsupportedModel modelName), requests := [] }

/-- `stream()` (agent.ts lines 229-232): the generator throws
`NotImplementedError("Agent.stream()")` before yielding anything. -/
def stream (_a : AgentState) (_message : String) : Except SendError AgentResponse :=
  .error (.notImplemented "Agent.stream()")

/-- Dispatching a concatenation of tool-call lists first dispatches the
left part; only when that part succeeds does the right part run on the
accumulated messages. -/
theorem dispatchTools_append (tools : Option (List MTool))
    (parseJson : String → Option Json) (stringifyJson : Json → String)
    (l1 l2 : List ToolCall) (msgs : List Msg) :
    dispatchTools tools parseJson stringifyJson (l1 ++ l2) msgs =
      match dispatchTools tools parseJson stringifyJson l1 msgs with
      | .ok m => dispatchTools tools parseJson stringifyJson l2 m
      | .error e => .error e := by
  induction l1 generalizing msgs with
  | nil => simp [dispatchTools]
  | cons tc rest ih =>
    by_cases h : tc.type = "function"
    · simp only [List.cons_append, dispatchTools, h, if_true]
      cases hf : findTool tools tc.name with
      | none => simp [hf]
      | some t =>
        cases hp : parseJson tc.arguments with
        | none => simp [hf, hp]
        | some args =>
          cases he : t.execute args with
          | error cause => simp [hf, hp, he]
          | ok result => simp only [hf, hp, he]; exact ih _
    · simp only [List.cons_append, dispatchTools, h, if_false]
      exact ih msgs

/-- Claim C6: the adapter maps the entirely empty schema spec to itself
(the empty-object passthrough), which is distinct from every wrapped
object schema, in particular from one with empty properties and an empty
required array. -/
theorem C6_empty_schema_passthrough :
    convertSchemaToJsonSchema [] = SchemaOut.emptyPassthrough ∧
    ∀ props rq, SchemaOut.emptyPassthrough ≠ SchemaOut.objectSchema props rq :=
  ⟨rfl, fun _ _ h => SchemaOut.noConfusion h⟩

/-- Claim C7: when the configuration holds no OPENAI_API_KEY entry (and
the model gate passes, so the credential check is reached), send() fails
with the missing-credential error and its request log is empty — the
failure precedes every provider request, so it is never a mid-loop
error. -/
theorem C7_missing_api_key (a : AgentState) (parseJson : String → Option Json)
    (stringifyJson : Json → String) (message : String)
    (script : List ProviderResponse)
    (hmodel : strStartsWith (resolveModelName a._modelName) "gpt-4" = true)
    (hkey : configLookup a._config "OPENAI_API_KEY" = none) :
    send a parseJson stringifyJson message script =
      { result := .error .missingApiKey, requests := [] } := by
  unfold send
  rw [hkey]
  simp [hmodel]

/-- Claim C8: stream() fails immediately, for every agent state and every
input message, with the not-implemented error for "Agent.stream()", and
that error kind is distinct from the configuration kinds (unsupported
model, missing key), the tool-not-found kind, the tool-argument kind, the
tool-execution kind and the provider-call kind. -/
theorem C8_stream_not_implemented :
    (∀ a message, stream a message =
      .error (.notImplemented "Agent.stream()")) ∧
    ∀ s,
      (∀ m, SendError.notImplemented s ≠ SendError.unsupportedModel m) ∧
      SendError.notImplemented s ≠ SendError.missingApiKey ∧
      (∀ n, SendError.notImplemented s ≠ SendError.toolNotFound n) ∧
      (∀ r, SendError.notImplemented s ≠ SendError.argumentParseError r) ∧
      (∀ c, SendError.notImplemented s ≠ SendError.toolExecutionError c) ∧
      SendError.notImplemented s ≠ SendError.providerCallError := by
  refine ⟨fun a message => rfl, fun s => ⟨?_, ?_, ?_, ?_, ?_, ?_⟩⟩ <;>
    intros <;> simp

/-- Claim C10: a tool-call entry whose union tag is not `function` is
skipped outright by the dispatch loop — dispatching it at the head is the
same as dispatching the remaining entries on unchanged messages, so no
registry lookup, no execution, no appended tool message and no error
come from it. -/
theorem C10_non_function_skipped (tools : Option (List MTool))
    (parseJson : String → Option Json) (stringifyJson : Json → String)
    (tc : ToolCall) (rest : List ToolCall) (msgs : List Msg)
    (h : tc.type ≠ "function") :
    dispatchTools tools parseJson stringifyJson (tc :: rest) msgs =
      dispatchTools tools parseJson stringifyJson rest msgs := by
  simp [dispatchTools, h]

/-- Claim C4: when the first provider reply has a finish reason other
than `tool_calls`, send() issues exactly one request (the request log is
the singleton initial request) and resolves with that reply's content —
the empty string when content is null — together with the reply's id,
model, usage and finish reason. -/
theorem C4_single_round_trip (a : AgentState)
    (parseJson : String → Option Json) (stringifyJson : Json → String)
    (message : String) (r : ProviderResponse) (rest : List ProviderResponse)
    (key : String)
    (hmodel : strStartsWith (resolveModelName a._modelName) "gpt-4" = true)
    (hkey : configLookup a._config "OPENAI_API_KEY" = some key)
    (hkey2 : key ≠ "")
    (hfin : r.choice.finish_reason ≠ "tool_calls") :
    send a parseJson stringifyJson message (r :: rest) =
      { result := .ok
          { content := r.choice.content.getD "",
            metadata := { id := r.id, model := r.model, usage := r.usage,
                          finishReason := r.choice.finish_reason } },
        requests := [mkRequest (resolveModelName a._modelName)
          (instructionMessages a._instructions ++ [.user message])
          (toolsParam a._tools) a._modelConfig] } := by
  unfold send
  rw [hkey]
  simp only [hmodel, if_true, hkey2, ite_false]
  unfold runLoop
  cases htc : r.choice.tool_calls with
  | none => simp [assembleResponse]
  | some tcs => simp [hfin, assembleResponse]

/-- Claim C9 as stated is false: the empty string is a configured model
name that does not begin with `gpt-4`, yet send() does not throw
UnsupportedModelError for it — the JS `||` default treats the empty name
as unconfigured, so this agent (which also lacks a credential) reaches
the credential check and fails there instead. -/
theorem C9_counterexample :
    strStartsWith "" "gpt-4" = false ∧
    send { _name := "a", _modelName := some "", _modelConfig := none,
           _instructions := none, _tools := none, _config := none }
        (fun _ => none) (fun _ => "") "hi" [] =
      { result := .error .missingApiKey, requests := [] } ∧
    ∀ m, (SendError.missingApiKey ≠ SendError.unsupportedModel m) :=
  ⟨rfl, rfl, fun _ h => SendError.noConfusion h⟩

/-- Claim C9 (amended): send() accepts only resolved model names beginning
with `gpt-4`.  When no model was configured — or the configured name is
the empty string, which JS `||` treats the same way — the name `gpt-4` is
used; for every configured non-empty model name not beginning with
`gpt-4`, send() fails with UnsupportedModelError naming it, for every
configuration (hence before any credential check) and with an empty
request log (hence before any provider interaction). -/
theorem C9_model_gate (a : AgentState) (parseJson : String → Option Json)
    (stringifyJson : Json → String) (message : String)
    (script : List ProviderResponse) (m : String)
    (hm : a._modelName = some m) (hne : m ≠ "")
    (hbad : strStartsWith m "gpt-4" = false) :
    send a parseJson stringifyJson message script =
      { result := .error (.unsupportedModel m), requests := [] } ∧
    resolveModelName none = "gpt-4" ∧ resolveModelName (some "") = "gpt-4" := by
  refine ⟨?_, rfl, rfl⟩
  unfold send
  rw [hm]
  simp [resolveModelName, hne, hbad]

/-- Claim C3: when the first reply requests tool calls and the dispatch
loop reaches a function-type call naming a tool absent from the agent's
tool list (every call before it having dispatched successfully), send()
fails with the tool-not-found error naming the requested tool, and the
request log stays at the single initial request: no further provider call
is issued after the failing lookup. -/
theorem C3_tool_not_found (a : AgentState)
    (parseJson : String → Option Json) (stringifyJson : Json → String)
    (message : String) (r : ProviderResponse) (rest : List ProviderResponse)
    (key : String) (pre post : List ToolCall) (tc : ToolCall)
    (msgs2 : List Msg)
    (hmodel : strStartsWith (resolveModelName a._modelName) "gpt-4" = true)
    (hkey : configLookup a._config "OPENAI_API_KEY" = some key)
    (hkey2 : key ≠ "")
    (hfin : r.choice.finish_reason = "tool_calls")
    (htcs : r.choice.tool_calls = some (pre ++ tc :: post))
    (hpre : dispatchTools a._tools parseJson stringifyJson pre
      ((instructionMessages a._instructions ++ [.user message]) ++
        [.assistant r.choice.content (pre ++ tc :: post)]) = .ok msgs2)
    (htype : tc.type = "function")
    (habsent : findTool a._tools tc.name = none) :
    send a parseJson stringifyJson message (r :: rest) =
      { result := .error (.toolNotFound tc.name),
        requests := [mkRequest (resolveModelName a._modelName)
          (instructionMessages a._instructions ++ [.user message])
          (toolsParam a._tools) a._modelConfig] } := by
  unfold send
  rw [hkey]
  simp only [hmodel, if_true, hkey2, ite_false]
  unfold runLoop
  rw [htcs]
  simp only [hfin, if_true, dispatchTools_append, hpre]
  simp [dispatchTools, htype, habsent]

/-- Claim C5: when the dispatch loop reaches a function-type call whose
tool is found, whose arguments parse, and whose execute throws, send()
rejects with the tool-execution error carrying the thrown cause; the
request log stays at the single initial request, so the failure is not
converted into a tool-role message fed back to the model and the provider
is not called again. -/
theorem C5_tool_execution_error (a : AgentState)
    (parseJson : String → Option Json) (stringifyJson : Json → String)
    (message : String) (r : ProviderResponse) (rest : List ProviderResponse)
    (key : String) (pre post : List ToolCall) (tc : ToolCall)
    (msgs2 : List Msg) (t : MTool) (args : Json) (cause : String)
    (hmodel : strStartsWith (resolveModelName a._modelName) "gpt-4" = true)
    (hkey : configLookup a._config "OPENAI_API_KEY" = some key)
    (hkey2 : key ≠ "")
    (hfin : r.choice.finish_reason = "tool_calls")
    (htcs : r.choice.tool_calls = some (pre ++ tc :: post))
    (hpre : dispatchTools a._tools parseJson stringifyJson pre
      ((instructionMessages a._instructions ++ [.user message]) ++
        [.assistant r.choice.content (pre ++ tc :: post)]) = .ok msgs2)
    (htype : tc.type = "function")
    (hfound : findTool a._tools tc.name = some t)
    (hparse : parseJson tc.arguments = some args)
    (hexec : t.execute args = .error cause) :
    send a parseJson stringifyJson message (r :: rest) =
      { result := .error (.toolExecutionError cause),
        requests := [mkRequest (resolveModelName a._modelName)
          (instructionMessages a._instructions ++ [.user message])
          (toolsParam a._tools) a._modelConfig] } := by
  unfold send
  rw [hkey]
  simp only [hmodel, if_true, hkey2, ite_false]
  unfold runLoop
  rw [htcs]
  simp only [hfin, if_true, dispatchTools_append, hpre]
  simp [dispatchTools, htype, hfound, hparse, hexec]

/-- Claim C1: in a two-iteration tool-call exchange (first reply requests
one function-type tool call that is found, parses and executes; second
reply is terminal), the message arrays of the two issued requests are
exactly the initial `[instructions?, user]` array — the optional system
entry present only when instructions is non-empty, as captured by
`instructionMessages` — and then that same array extended, in order, with
the assistant entry carrying the tool calls and the tool-result entry:
nothing is removed or reordered by the loop, and the final request's
array is `[instructions?, user, assistant(toolCalls), tool(result)]`. -/
theorem C1_message_ordering (a : AgentState)
    (parseJson : String → Option Json) (stringifyJson : Json → String)
    (message : String) (r1 r2 : ProviderResponse) (tc : ToolCall)
    (key : String) (t : MTool) (args result : Json)
    (hmodel : strStartsWith (resolveModelName a._modelName) "gpt-4" = true)
    (hkey : configLookup a._config "OPENAI_API_KEY" = some key)
    (hkey2 : key ≠ "")
    (hfin1 : r1.choice.finish_reason = "tool_calls")
    (htc1 : r1.choice.tool_calls = some [tc])
    (htype : tc.type = "function")
    (hfound : findTool a._tools tc.name = some t)
    (hparse : parseJson tc.arguments = some args)
    (hexec : t.execute args = .ok result)
    (hfin2 : r2.choice.finish_reason ≠ "tool_calls") :
    (send a parseJson stringifyJson message [r1, r2]).requests.map
        Request.messages =
      [ instructionMessages a._instructions ++ [.user message],
        instructionMessages a._instructions ++
          [.user message, .assistant r1.choice.content [tc],
           .tool (stringifyJson result) tc.id] ] := by
  unfold send
  rw [hkey]
  simp only [hmodel, if_true, hkey2, ite_false]
  unfold runLoop
  rw [htc1]
  simp only [hfin1, if_true, dispatchTools, htype, hfound, hparse, hexec]
  unfold runLoop
  cases htc2 : r2.choice.tool_calls with
  | none => simp [mkRequest]
  | some tcs => simp [hfin2, mkRequest]

/-- Reading the adapter output through `requiredOf` recovers exactly the
accumulated required list (whether the key was emitted or omitted). -/
theorem requiredOf_convert (s : List (String × SchemaVal)) :
    requiredOf (convertSchemaToJsonSchema s) = (convertEntries s).2 := by
  cases s with
  | nil => rfl
  | cons kv rest =>
    unfold convertSchemaToJsonSchema
    simp only [List.isEmpty_cons, Bool.false_eq_true, if_false]
    by_cases h2 : 0 < (convertEntries (kv :: rest)).2.length
    · simp [requiredOf, h2]
    · cases hq : (convertEntries (kv :: rest)).2 with
      | nil => simp [requiredOf, hq]
      | cons a l => rw [hq] at h2; simp at h2

/-- A key that does not occur in the schema never occurs in the
accumulated required list. -/
theorem count_required_not_mem (k : String) :
    ∀ s : List (String × SchemaVal), k ∉ s.map Prod.fst →
      List.count k (convertEntries s).2 = 0 := by
  intro s
  induction s with
  | nil => intro _; rfl
  | cons kv rest ih =>
    intro hk
    obtain ⟨k1, v1⟩ := kv
    simp only [List.map_cons, List.mem_cons] at hk
    push_neg at hk
    obtain ⟨hk1, hk2⟩ := hk
    cases v1 with
    | zod tn conv =>
      by_cases h : tn = "ZodOptional"
      · simp [convertEntries, h, ih hk2]
      · simp [convertEntries, h, List.count_cons, ih hk2, hk1]
    | raw value => simp [convertEntries, ih hk2]

/-- The count, in the accumulated required list, of a parameter present in
a schema with pairwise-distinct keys: one when the entry bears the
required mark (a Zod validator whose typeName is not ZodOptional), zero
otherwise. -/
theorem count_required_mem (k : String) (v : SchemaVal) :
    ∀ s : List (String × SchemaVal), (s.map Prod.fst).Nodup → (k, v) ∈ s →
      List.count k (convertEntries s).2 =
        if requiredMark v then 1 else 0 := by
  intro s
  induction s with
  | nil => intro _ hmem; cases hmem
  | cons kv rest ih =>
    intro hnd hmem
    obtain ⟨k1, v1⟩ := kv
    rw [List.map_cons, List.nodup_cons] at hnd
    rcases List.mem_cons.mp hmem with heq | htail
    · injection heq with e1 e2
      subst e1
      subst e2
      have hz := count_required_not_mem k rest hnd.1
      cases v with
      | zod tn conv =>
        by_cases h : tn = "ZodOptional"
        · simp [convertEntries, requiredMark, h, hz]
        · simp [convertEntries, requiredMark, h, List.count_cons, hz]
      | raw value => simp [convertEntries, requiredMark, hz]
    · have hk1 : k1 ≠ k := by
        intro e
        subst e
        exact hnd.1 (List.mem_map.mpr ⟨(k1, v), htail, rfl⟩)
      have hrec := ih hnd.2 htail
      cases v1 with
      | zod tn conv =>
        by_cases h : tn = "ZodOptional"
        · simp [convertEntries, h, hrec]
        · simp [convertEntries, h, List.count_cons, hrec, hk1]
      | raw value => simp [convertEntries, hrec]

/-- Claim C2 as stated is false: the parameter "x" of this one-entry
schema carries a plain non-validator value, so nothing marks it optional,
yet the adapter output has no required key at all — "x" appears zero
times, not exactly once, in the required array. -/
theorem C2_counterexample :
    markedOptional (SchemaVal.raw Json.null) = false ∧
    convertSchemaToJsonSchema [("x", SchemaVal.raw Json.null)] =
      SchemaOut.objectSchema [("x", Json.null)] none ∧
    List.count "x" (requiredOf (convertSchemaToJsonSchema
      [("x", SchemaVal.raw Json.null)])) = 0 :=
  ⟨rfl, rfl, rfl⟩

/-- Claim C2 (amended): for every SchemaSpec with pairwise-distinct
parameter names (JavaScript object keys are unique), a parameter backed by
a Zod validator not marked ZodOptional appears in the output required
array exactly once, while a parameter marked ZodOptional — and likewise a
parameter whose value is a plain non-validator fragment, which carries no
optionality marker — never appears in it. -/
theorem C2_required_set (s : List (String × SchemaVal)) (k : String)
    (v : SchemaVal) (hnd : (s.map Prod.fst).Nodup) (hmem : (k, v) ∈ s) :
    List.count k (requiredOf (convertSchemaToJsonSchema s)) =
      if requiredMark v then 1 else 0 := by
  rw [requiredOf_convert]
  exact count_required_mem k v s hnd hmem

/-- Fixture: a tool that succeeds, returning the number 5. -/
def wTool : MTool :=
  { name := "add", description := "adds two numbers",
    schema := [("a", .zod "ZodNumber" (Json.obj [("type", Json.str "number")]))],
    execute := fun _ => .ok (Json.num 5) }

/-- Fixture: a tool whose execute always throws. -/
def wBoom : MTool :=
  { name := "boom", description := "always throws",
    schema := [], execute := fun _ => .error "boom" }

/-- Fixture: a fully configured agent holding both tools. -/
def wAgent : AgentState :=
  { _name := "assistant", _modelName := some "gpt-4", _modelConfig := none,
    _instructions := some "Be terse", _tools := some [wTool, wBoom],
    _config := some [("OPENAI_API_KEY", "sk-test")] }

/-- Fixture: an agent whose configuration has no OPENAI_API_KEY entry. -/
def wAgentNoKey : AgentState :=
  { _name := "assistant", _modelName := none, _modelConfig := none,
    _instructions := none, _tools := none, _config := some [("OTHER", "x")] }

/-- Fixture: an agent configured with a non-gpt-4 model name. -/
def wAgentOldModel : AgentState :=
  { _name := "assistant", _modelName := some "gpt-3.5-turbo",
    _modelConfig := none, _instructions := some "Be terse",
    _tools := some [wTool, wBoom],
    _config := some [("OPENAI_API_KEY", "sk-test")] }

/-- Fixture: a three-parameter schema exercising all three entry kinds. -/
def wSchemaSample : List (String × SchemaVal) :=
  [("a", .zod "ZodNumber" (Json.obj [("type", Json.str "number")])),
   ("b", .zod "ZodOptional" Json.null),
   ("c", .raw Json.null)]

/-- Fixture: a stub JSON parser that accepts any text as the empty
object. -/
def wParse : String → Option Json := fun _ => some (Json.obj [])

/-- Fixture: a stub serializer. -/
def wStringify : Json → String := fun _ => "5"

/-- Fixture: a function-type tool call for the "add" tool. -/
def wCallAdd : ToolCall :=
  { type := "function", id := "call-1", name := "add", arguments := "raw-args" }

/-- Fixture: a function-type tool call for the throwing tool. -/
def wCallBoom : ToolCall :=
  { type := "function", id := "call-2", name := "boom", arguments := "raw-args" }

/-- Fixture: a function-type tool call naming an unregistered tool. -/
def wCallMissing : ToolCall :=
  { type := "function", id := "call-3", name := "subtract", arguments := "raw-args" }

/-- Fixture: a tool call whose union tag is not `function`. -/
def wCallCustom : ToolCall :=
  { type := "custom", id := "call-4", name := "whatever", arguments := "raw-args" }

/-- Fixture: a provider reply requesting the given tool calls. -/
def wReplyTool (tcs : List ToolCall) : ProviderResponse :=
  { id := "resp-1", model := "gpt-4-0613", usage := ⟨7, 8, 15⟩,
    choice := { finish_reason := "tool_calls", content := none,
                tool_calls := some tcs } }

/-- Fixture: a terminal provider reply. -/
def wReplyStop : ProviderResponse :=
  { id := "resp-2", model := "gpt-4-0613", usage := ⟨9, 10, 19⟩,
    choice := { finish_reason := "stop", content := some "The sum is 5",
                tool_calls := none } }

/-- Witness for C1 at a concrete two-iteration exchange. -/
theorem C1_witness :
    (send wAgent wParse wStringify "ping"
        [wReplyTool [wCallAdd], wReplyStop]).requests.map Request.messages =
      [ [Msg.system "Be terse", Msg.user "ping"],
        [Msg.system "Be terse", Msg.user "ping",
         Msg.assistant none [wCallAdd], Msg.tool "5" "call-1"] ] :=
  C1_message_ordering wAgent wParse wStringify "ping" (wReplyTool [wCallAdd])
    wReplyStop wCallAdd "sk-test" wTool (Json.obj []) (Json.num 5)
    rfl rfl (by decide) rfl rfl rfl rfl rfl rfl (by decide)

/-- Witness for C2 (amended) at a concrete three-parameter schema. -/
theorem C2_witness :
    ((wSchemaSample.map Prod.fst).Nodup) ∧
    ("a", SchemaVal.zod "ZodNumber" (Json.obj [("type", Json.str "number")]))
      ∈ wSchemaSample ∧
    List.count "a" (requiredOf (convertSchemaToJsonSchema wSchemaSample)) = 1 :=
  ⟨by decide, List.mem_cons_self _ _,
   C2_required_set wSchemaSample "a"
     (.zod "ZodNumber" (Json.obj [("type", Json.str "number")]))
     (by decide) (List.mem_cons_self _ _)⟩

/-- Witness for C3: the provider requests an unregistered tool. -/
theorem C3_witness :
    findTool wAgent._tools "subtract" = none ∧
    send wAgent wParse wStringify "ping"
        [wReplyTool [wCallMissing], wReplyStop] =
      { result := .error (.toolNotFound "subtract"),
        requests := [mkRequest "gpt-4" [.system "Be terse", .user "ping"]
          (toolsParam wAgent._tools) none] } :=
  ⟨rfl,
   C3_tool_not_found wAgent wParse wStringify "ping" (wReplyTool [wCallMissing])
     [wReplyStop] "sk-test" [] [] wCallMissing
     [Msg.system "Be terse", Msg.user "ping", Msg.assistant none [wCallMissing]]
     rfl rfl (by decide) rfl rfl rfl rfl rfl⟩

/-- Witness for C4: a terminal first reply ends after one round-trip. -/
theorem C4_witness :
    ("stop" : String) ≠ "tool_calls" ∧
    send wAgent wParse wStringify "ping" [wReplyStop] =
      { result := .ok
          { content := "The sum is 5",
            metadata := { id := "resp-2", model := "gpt-4-0613",
                          usage := ⟨9, 10, 19⟩, finishReason := "stop" } },
        requests := [mkRequest "gpt-4" [.system "Be terse", .user "ping"]
          (toolsParam wAgent._tools) none] } :=
  ⟨by decide,
   C4_single_round_trip wAgent wParse wStringify "ping" wReplyStop [] "sk-test"
     rfl rfl (by decide) (by decide)⟩

/-- Witness for C5: a throwing tool aborts the whole call. -/
theorem C5_witness :
    wBoom.execute (Json.obj []) = Except.error "boom" ∧
    send wAgent wParse wStringify "ping"
        [wReplyTool [wCallBoom], wReplyStop] =
      { result := .error (.toolExecutionError "boom"),
        requests := [mkRequest "gpt-4" [.system "Be terse", .user "ping"]
          (toolsParam wAgent._tools) none] } :=
  ⟨rfl,
   C5_tool_execution_error wAgent wParse wStringify "ping"
     (wReplyTool [wCallBoom]) [wReplyStop] "sk-test" [] [] wCallBoom
     [Msg.system "Be terse", Msg.user "ping", Msg.assistant none [wCallBoom]]
     wBoom (Json.obj []) "boom"
     rfl rfl (by decide) rfl rfl rfl rfl rfl rfl rfl⟩

/-- Witness for C7: a configuration without the key entry. -/
theorem C7_witness :
    configLookup wAgentNoKey._config "OPENAI_API_KEY" = none ∧
    send wAgentNoKey wParse wStringify "ping" [wReplyStop] =
      { result := .error .missingApiKey, requests := [] } :=
  ⟨rfl,
   C7_missing_api_key wAgentNoKey wParse wStringify "ping" [wReplyStop] rfl rfl⟩

/-- Witness for C9 (amended) at a concrete unsupported model name. -/
theorem C9_witness :
    ("gpt-3.5-turbo" : String) ≠ "" ∧
    strStartsWith "gpt-3.5-turbo" "gpt-4" = false ∧
    (send wAgentOldModel wParse wStringify "hi" [wReplyStop] =
      { result := .error (.unsupportedModel "gpt-3.5-turbo"), requests := [] } ∧
     resolveModelName none = "gpt-4" ∧ resolveModelName (some "") = "gpt-4") :=
  ⟨by decide, rfl,
   C9_model_gate wAgentOldModel wParse wStringify "hi" [wReplyStop]
     "gpt-3.5-turbo" rfl (by decide) rfl⟩

/-- Witness for C10: a non-function tool call is skipped. -/
theorem C10_witness :
    wCallCustom.type ≠ "function" ∧
    dispatchTools (some [wTool]) wParse wStringify [wCallCustom] [] =
      dispatchTools (some [wTool]) wParse wStringify [] [] :=
  ⟨by decide,
   C10_non_function_skipped (some [wTool]) wParse wStringify wCallCustom [] []
     (by decide)⟩
